import Mathlib

/-
Verification of the AstroCanvas chart computation engine (src/app.py).

The Python source works on floating point longitudes; the embedding models
them as exact rationals, Python dicts with string keys as association lists
(first match wins, as for dict insertion of distinct keys), values that may
be None as Option, and a body of code that may raise an exception as a
function returning Option (none = the exception propagates).
-/

namespace AstroCanvas

/-- Body-to-longitude mapping of a chart: the Python dict pos maps body names
to either a longitude or None (stored for a failed node computation). -/
abbrev Positions := List (String × Option ℚ)

/-- Dictionary read pos.get(name): the stored value if the key is present,
None otherwise; a stored None and an absent key both read back as none. -/
def getPos (pos : Positions) (name : String) : Option ℚ := (pos.lookup name).join

/-- Embeds normalize (src/app.py line 169): lon % 360.0. Python float modulo
takes the sign of the divisor, so in exact arithmetic it is
lon - 360 * floor (lon / 360). -/
def normalize (lon : ℚ) : ℚ := lon - 360 * ⌊lon / 360⌋

/-- Embeds sign_index (line 172): int((lon % 360.0) // 30); the value is
nonnegative, so int() truncation coincides with the floor division. -/
def sign_index (lon : ℚ) : ℤ := ⌊normalize lon / 30⌋

/-- Embeds dms (lines 175-181): truncating degree / minute / second
decomposition of the normalized angle (each int() acts on a nonnegative
value, hence equals floor). -/
def dms (angle : ℚ) : ℤ × ℤ × ℤ :=
  let a := normalize angle
  let deg := ⌊a⌋
  let rem := (a - deg) * 60
  let minute := ⌊rem⌋
  let second := ⌊(rem - minute) * 60⌋
  (deg, minute, second)

/-- Embeds MAR_TITHI (lines 150-154): the 30 Marathi tithi labels. -/
def MAR_TITHI : List String :=
  ["शुक्ल प्रतिपदा", "शुक्ल द्वितीया", "शुक्ल तृतीया", "शुक्ल चतुर्थी", "शुक्ल पंचमी",
   "शुक्ल षष्ठी", "शुक्ल सप्तमी", "शुक्ल अष्टमी", "शुक्ल नवमी", "शुक्ल दशमी",
   "शुक्ल एकादशी", "शुक्ल द्वादशी", "शुक्ल त्रयोदशी", "शुक्ल चतुर्दशी", "पुर्णिमा/अमावास्या",
   "कृष्ण प्रतिपदा", "कृष्ण द्वितीया", "कृष्ण तृतीया", "कृष्ण चतुर्थी", "कृष्ण पंचमी",
   "कृष्ण षष्ठी", "कृष्ण सप्तमी", "कृष्ण अष्टमी", "कृष्ण नवमी", "कृष्ण दशमी",
   "कृष्ण एकादशी", "कृष्ण द्वादशी", "कृष्ण त्रयोदशी", "कृष्ण चतुर्दशी", "अमावास्या/पुर्णिमा"]

/-- Embeds MAR_NAK (lines 156-159): the 27 Marathi nakshatra labels. -/
def MAR_NAK : List String :=
  ["अश्विनी", "भरणी", "कृत्तिका", "रोहिणी", "मृगशीर्ष", "आर्द्रा", "पुनर्वसु", "पुष्य",
   "आश्लेषा", "मघा", "पूर्व फाल्गुनी", "उत्तर फाल्गुनी", "हस्त", "चित्रा", "स्वाती",
   "विशाखा", "अनुराधा", "ज्येष्ठा", "मूल", "पूर्वाषाढा", "उत्तराषाढा", "श्रवण",
   "धनिष्ठा", "शतभिषा", "पूर्वभाद्रपदा", "उत्तरभाद्रपदा", "रेवती"]

/-- Embeds VIM_DASHA_ORDER (line 165): the canonical cyclical order of the
nine dasha rulers. -/
def VIM_DASHA_ORDER : List String :=
  ["Ketu", "Venus", "Sun", "Moon", "Mars", "Rahu", "Jupiter", "Saturn", "Mercury"]

/-- Embeds VIM_DASHA_YEARS (line 166): the canonical period length of each
ruler. Python dict lookup raises on a missing key; the wildcard 0 is never
reached for the rulers actually used. -/
def VIM_DASHA_YEARS : String → ℚ
  | "Ketu" => 7
  | "Venus" => 20
  | "Sun" => 6
  | "Moon" => 10
  | "Mars" => 7
  | "Rahu" => 18
  | "Jupiter" => 16
  | "Saturn" => 19
  | "Mercury" => 17
  | _ => 0

/-- Result record of compute_panchang (line 255): the dict with the four
indices and the two Marathi labels. -/
structure PanchangResult where
  tithi_idx : ℤ
  tithi_mar : String
  nak_idx : ℤ
  nak_mar : String
  yoga_idx : ℤ
  karana_idx : ℤ
deriving DecidableEq

/-- Embeds compute_panchang (lines 240-255). List indexing of the label
tables is embedded with getD; for the indices produced from longitudes in
[0, 360) the index is always in range, as in the source. -/
def compute_panchang (pos : Positions) : Option PanchangResult :=
  match getPos pos "Sun", getPos pos "Moon" with
  | some sun, some moon =>
    let diff := normalize (moon - sun)
    let tithi_index : ℤ := ⌊diff / 12⌋
    let nak_index : ℤ := ⌊moon / (360 / 27)⌋
    let yoga_val := normalize (sun + moon)
    let yoga_index : ℤ := ⌊yoga_val / (360 / 27)⌋
    let karana_index : ℤ := (tithi_index * 2) % 11
    some { tithi_idx := tithi_index, tithi_mar := MAR_TITHI.getD tithi_index.toNat "",
           nak_idx := nak_index, nak_mar := MAR_NAK.getD nak_index.toNat "",
           yoga_idx := yoga_index, karana_idx := karana_index }
  | _, _ => none

/-- One entry of the vimshottari sequence (lines 268, 274): the dict with
keys lord, years, from_now. -/
structure DashaPeriod where
  lord : String
  years : ℚ
  from_now : ℚ
deriving DecidableEq

/-- Default used for out-of-range list reads in statements about dasha
sequences (never an actual entry). -/
def dpDefault : DashaPeriod := { lord := "", years := 0, from_now := 0 }

/-- Embeds the 27-entry repeating mapping of vimshottari (line 264):
mapping = [order[i % 9] for i in range(27)]. -/
def vimMapping : List String := (List.range 27).map (fun i => VIM_DASHA_ORDER.getD (i % 9) "")

/-- Names the let-binding start_lord of vimshottari (line 265) as a function
of the Moon longitude: mapping[nak_index]. -/
def vimStartLord (moon_lon : ℚ) : String :=
  vimMapping.getD (⌊moon_lon / (360 / 27)⌋).toNat ""

/-- Names the let-bindings nak_deg and frac of vimshottari (lines 266-267):
(moon_lon % (360/27)) / (360/27), with Python float modulo written out. -/
def vimFraction (moon_lon : ℚ) : ℚ :=
  (moon_lon - (360 / 27) * ⌊moon_lon / (360 / 27)⌋) / (360 / 27)

/-- Embeds the loop for i in range(1, 9) of vimshottari (lines 272-276):
fuel counts the remaining iterations, running accumulates from_now, i is
the loop index. -/
def dashaTail (idx0 : ℕ) : ℕ → ℚ → ℕ → List DashaPeriod
  | 0, _, _ => []
  | fuel + 1, running, i =>
    let lord := VIM_DASHA_ORDER.getD ((idx0 + i) % 9) ""
    let years := VIM_DASHA_YEARS lord
    { lord := lord, years := years, from_now := running } ::
      dashaTail idx0 fuel (running + years) (i + 1)

/-- Embeds vimshottari (lines 258-278). order.index(start_lord) is
List.indexOf; mapping[nak_index] is embedded with getD (in range for Moon
longitudes in [0, 360), as in the source). -/
def vimshottari (pos : Positions) : Option (List DashaPeriod) :=
  match getPos pos "Moon" with
  | none => none
  | some moon_lon =>
    let start_lord := vimStartLord moon_lon
    let frac := vimFraction moon_lon
    let total_years := VIM_DASHA_YEARS start_lord
    let balance := (1 - frac) * total_years
    let idx0 := VIM_DASHA_ORDER.indexOf start_lord
    some ({ lord := start_lord, years := balance, from_now := 0 } ::
      dashaTail idx0 8 balance 1)

/-- The names of the seven bodies queried in the planet loop of
compute_chart (line 207): bodies = [("Sun", swe.SUN), ...]. -/
def bodyNames : List String :=
  ["Sun", "Moon", "Mercury", "Venus", "Mars", "Jupiter", "Saturn"]

/-- The ephemeris provider as seen by compute_chart at a fixed instant and
location: swe.calc_ut per body name (longitude xx[0] and speed xx[3]; none
when the call raises), swe.calc_ut for the true node, swe.houses (ascendant
ascmc[0], midheaven ascmc[1], provider cusp list; none when the call
raises), and the ayanamsa value. -/
structure Provider where
  calc_ut : String → Option (ℚ × ℚ)
  node : Option ℚ
  houses : Option (ℚ × ℚ × List ℚ)
  ayanamsa : ℚ

/-- The planet loop of compute_chart (lines 212-215): each body is queried
in turn and an uncaught exception from any query aborts the whole
computation. -/
def calcAll (f : String → Option (ℚ × ℚ)) : List String → Option (List (String × ℚ × ℚ))
  | [] => some []
  | n :: rest =>
    match f n, calcAll f rest with
    | some r, some rs => some ((n, r) :: rs)
    | _, _ => none

/-- The dict returned by compute_chart (line 237): jd_ut, dt_ut, positions,
speeds, asc, mc. -/
structure ChartSnapshot where
  jd_ut : ℚ
  dt_ut : String
  positions : Positions
  speeds : List (String × ℚ)
  asc : Option ℚ
  mc : Option ℚ

/-- The keys of the dict literal returned by compute_chart (line 237),
in insertion order. -/
def chartKeys : List String :=
  ["jd_ut", "dt_ut", "positions", "speeds", "asc", "mc"]

/-- Embeds compute_chart (lines 196-237). Time conversion (strptime,
julday) and the topocentric flag are provider concerns, abstracted into
the jd and dt parameters and the Provider value; the body loop has no
try/except, so a failing planet query aborts the whole chart (none),
while the node block and the houses block catch their exceptions. -/
def compute_chart (jd : ℚ) (dt : String) (p : Provider) (sidereal : Bool) :
    Option ChartSnapshot :=
  let ay := if sidereal then p.ayanamsa else 0
  match calcAll p.calc_ut bodyNames with
  | none => none
  | some results =>
    let pos : Positions :=
      results.map (fun r => (r.1, some (normalize (r.2.1 - (if sidereal then ay else 0)))))
    let speed : List (String × ℚ) := results.map (fun r => (r.1, r.2.2))
    let nodePos : Positions :=
      match p.node with
      | some rn =>
        let rn_lon := normalize (rn - (if sidereal then ay else 0))
        let kn_lon := normalize (rn_lon + 180)
        [("Rahu", some rn_lon), ("Ketu", some kn_lon)]
      | none => [("Rahu", none), ("Ketu", none)]
    let ascmc : Option ℚ × Option ℚ :=
      match p.houses with
      | some (a, m, _) =>
        (some (normalize (a - (if sidereal then ay else 0))),
         some (normalize (m - (if sidereal then ay else 0))))
      | none => (none, none)
    some { jd_ut := jd, dt_ut := dt, positions := pos ++ nodePos,
           speeds := speed, asc := ascmc.1, mc := ascmc.2 }

/-- Models Python str.startswith on the underlying character sequences. -/
def charsStart : List Char → List Char → Bool
  | _, [] => true
  | [], _ :: _ => false
  | c :: cs, d :: ds => c == d && charsStart cs ds

/-- The sidereal flag of the Generate handler (line 444):
not mode.startswith(Western) and not mode.startswith(the Marathi label). -/
def siderealOfMode (mode : String) : Bool :=
  !(charsStart mode.data "Western".data) && !(charsStart mode.data "पाश्चात्य".data)

/-- The dasha branch of the Generate handler (line 449):
dasha = vimshottari(positions) if sidereal else None. -/
def generateDasha (mode : String) (pos : Positions) : Option (List DashaPeriod) :=
  if siderealOfMode mode then vimshottari pos else none

/-- Embeds the mode_options list of the English translation table (line 59). -/
def mode_options_en : List String :=
  ["Maharashtra (North Kundali)", "South Indian", "Western (Tropical)"]

/-- Embeds the mode_options list of the Marathi translation table (line 90). -/
def mode_options_mr : List String :=
  ["महाराष्ट्र (North Kundali)", "दक्षिण भारतीय", "पाश्चात्य (Tropical)"]

/-- Embeds the mode_options list of the Hindi translation table (line 121). -/
def mode_options_hi : List String :=
  ["महाराष्ट्र (North Kundali)", "दक्षिण भारतीय", "पश्चिमी (Tropical)"]

/-- Modelled from the spec: minAngularSeparation of section 4.1 is absent
from src/app.py (no aspect code exists in the source); the spec gives
abs(((a - b + 180) mod 360) - 180). -/
def minAngularSeparation (a b : ℚ) : ℚ := |normalize (a - b + 180) - 180|

/-- Modelled from the spec: a caller-supplied aspect definition
(name, exact angle, orb, display weight) of section 4.5; absent from
src/app.py. -/
structure AspectDef where
  name : String
  exactAngle : ℚ
  orb : ℚ
  weight : ℚ

/-- Modelled from the spec: one recorded aspect match
(bodyA, bodyB, separationDegrees, aspectName) of section 6; absent from
src/app.py. -/
structure AspectMatch where
  bodyA : String
  bodyB : String
  separation : ℚ
  aspectName : String

/-- The unordered pairs (i < j) of a roster, in roster order. -/
def pairsOf : List (String × ℚ) → List ((String × ℚ) × (String × ℚ))
  | [] => []
  | x :: xs => xs.map (fun y => (x, y)) ++ pairsOf xs

/-- Modelled from the spec: the Aspect Detector of section 4.5, absent from
src/app.py. For every unordered pair (i < j) of the roster and every
configured definition, a match is recorded exactly when
abs(separation - exactAngle) is at most orb. -/
def detectAspects (roster : List (String × ℚ)) (defs : List AspectDef) : List AspectMatch :=
  (pairsOf roster).flatMap (fun p =>
    defs.filterMap (fun d =>
      if |minAngularSeparation p.1.2 p.2.2 - d.exactAngle| ≤ d.orb then
        some { bodyA := p.1.1, bodyB := p.2.1,
               separation := minAngularSeparation p.1.2 p.2.2, aspectName := d.name }
      else none))

/-- A fully available provider used to exercise compute_chart on concrete
data: every planet resolves, the true node is at 10 degrees, the ascendant
at 125 and the midheaven at 50 degrees. -/
def wProvider : Provider :=
  { calc_ut := fun _ => some (30, 1), node := some 10,
    houses := some (125, 50, [300, 330, 0]), ayanamsa := 5 }

/-- Placeholder snapshot used as the default of Option.getD. -/
def emptySnap : ChartSnapshot :=
  { jd_ut := 0, dt_ut := "", positions := [], speeds := [], asc := none, mc := none }

/-- The snapshot computed from wProvider in tropical mode. -/
def wSnap : ChartSnapshot := (compute_chart 0 "" wProvider false).getD emptySnap

/-- A provider whose Sun query raises while every other query succeeds. -/
def failProvider : Provider :=
  { calc_ut := fun n => if n = "Sun" then none else some (10, 1), node := some 100,
    houses := some (125, 50, [300, 330, 0]), ayanamsa := 0 }

/-- A fully available provider with ascendant 125 degrees and one cusp list. -/
def wsProviderA : Provider :=
  { calc_ut := fun _ => some (30, 1), node := some 10,
    houses := some (125, 50, [300, 330, 0]), ayanamsa := 0 }

/-- The same provider with a different cusp list. -/
def wsProviderB : Provider := { wsProviderA with houses := some (125, 50, [0, 30, 60]) }

/-! Helper lemmas -/

theorem lookup_skip {β : Type} (l₁ l₂ : List (String × β)) (a : String)
    (h : ∀ x ∈ l₁, x.1 ≠ a) : (l₁ ++ l₂).lookup a = l₂.lookup a := by
  induction l₁ with
  | nil => rfl
  | cons x t ih =>
    cases x with
    | mk k v =>
      have hk : (a == k) = false :=
        beq_eq_false_iff_ne.mpr (Ne.symm (h (k, v) (List.mem_cons_self _ _)))
      simp only [List.cons_append, List.lookup, hk]
      exact ih fun y hy => h y (List.mem_cons_of_mem _ hy)

theorem lookup_none {β : Type} (l : List (String × β)) (a : String)
    (h : ∀ x ∈ l, x.1 ≠ a) : l.lookup a = none := by
  induction l with
  | nil => rfl
  | cons x t ih =>
    cases x with
    | mk k v =>
      have hk : (a == k) = false :=
        beq_eq_false_iff_ne.mpr (Ne.symm (h (k, v) (List.mem_cons_self _ _)))
      simp only [List.lookup, hk]
      exact ih fun y hy => h y (List.mem_cons_of_mem _ hy)

theorem keys_of_mapped {β : Type} (results : List (String × ℚ × ℚ))
    (v : String × ℚ × ℚ → β) :
    (results.map (fun r => (r.1, v r))).map Prod.fst = results.map Prod.fst := by
  simp [List.map_map, Function.comp]

theorem calcAll_keys (f : String → Option (ℚ × ℚ)) : ∀ (names : List String)
    (res : List (String × ℚ × ℚ)), calcAll f names = some res →
    res.map Prod.fst = names := by
  intro names
  induction names with
  | nil =>
    intro res h
    simp only [calcAll, Option.some.injEq] at h
    subst h
    rfl
  | cons n rest ih =>
    intro res h
    simp only [calcAll] at h
    cases hf : f n with
    | none => rw [hf] at h; cases h
    | some r =>
      cases hc : calcAll f rest with
      | none => rw [hf, hc] at h; cases h
      | some rs =>
        rw [hf, hc] at h
        simp only [Option.some.injEq] at h
        subst h
        simp only [List.map_cons]
        rw [ih rs hc]

theorem calcAll_isSome (f : String → Option (ℚ × ℚ)) : ∀ names : List String,
    (calcAll f names).isSome = true ↔ ∀ n ∈ names, (f n).isSome = true := by
  intro names
  induction names with
  | nil => simp [calcAll]
  | cons n rest ih =>
    simp only [calcAll, List.forall_mem_cons]
    cases hf : f n with
    | none => simp [hf]
    | some r =>
      cases hc : calcAll f rest with
      | none =>
        rw [hc] at ih
        simp only [Option.isSome_none, Bool.false_eq_true, false_iff] at ih
        simp [ih]
      | some rs =>
        rw [hc] at ih
        simp only [Option.isSome_some, true_iff] at ih
        simp only [Option.isSome_some, true_iff, true_and]
        exact ih

theorem getPos_pair_first (x y : Option ℚ) :
    getPos [("Rahu", x), ("Ketu", y)] "Rahu" = x := rfl

theorem getPos_pair_second (x y : Option ℚ) :
    getPos [("Rahu", x), ("Ketu", y)] "Ketu" = y := rfl

theorem getPos_planets_skip (results : List (String × ℚ × ℚ))
    (v : String × ℚ × ℚ → Option ℚ) (nodePos : Positions) (a : String)
    (hk : results.map Prod.fst = bodyNames) (ha : a ∉ bodyNames) :
    getPos (results.map (fun r => (r.1, v r)) ++ nodePos) a = getPos nodePos a := by
  unfold getPos
  rw [lookup_skip]
  intro x hx
  obtain ⟨r, hr, rfl⟩ := List.mem_map.mp hx
  intro e
  apply ha
  rw [← hk, ← e]
  exact List.mem_map_of_mem Prod.fst hr

theorem norm_nonneg_aux (x : ℚ) : 0 ≤ normalize x := by
  have h : (⌊x / 360⌋ : ℚ) ≤ x / 360 := Int.floor_le _
  have h2 : (360 : ℚ) * (⌊x / 360⌋ : ℚ) ≤ 360 * (x / 360) :=
    mul_le_mul_of_nonneg_left h (by norm_num)
  have h3 : (360 : ℚ) * (x / 360) = x := by ring
  unfold normalize
  linarith

theorem norm_lt_360 (x : ℚ) : normalize x < 360 := by
  have h : x / 360 < (⌊x / 360⌋ : ℚ) + 1 := Int.lt_floor_add_one _
  have h2 : (360 : ℚ) * (x / 360) < 360 * ((⌊x / 360⌋ : ℚ) + 1) :=
    mul_lt_mul_of_pos_left h (by norm_num)
  have h3 : (360 : ℚ) * (x / 360) = x := by ring
  unfold normalize
  linarith

theorem norm_eq_self (x : ℚ) (h0 : 0 ≤ x) (h1 : x < 360) : normalize x = x := by
  have hf : ⌊x / 360⌋ = 0 := by
    rw [Int.floor_eq_zero_iff]
    constructor
    · positivity
    · rw [div_lt_one (by norm_num : (0 : ℚ) < 360)]; exact h1
  unfold normalize
  rw [hf]
  ring

theorem norm_idem_aux (x : ℚ) : normalize (normalize x) = normalize x :=
  norm_eq_self _ (norm_nonneg_aux x) (norm_lt_360 x)

theorem vimMapping_getD : ∀ k : ℕ, k < 27 →
    vimMapping.getD k "" = VIM_DASHA_ORDER.getD (k % 9) "" := by decide

theorem indexOf_getD : ∀ j : ℕ, j < 9 →
    VIM_DASHA_ORDER.indexOf (VIM_DASHA_ORDER.getD j "") = j := by decide

theorem rotation_perm : ∀ j : ℕ, j < 9 →
    ((List.range 9).map (fun t => VIM_DASHA_ORDER.getD ((j + t) % 9) "")).Perm
      VIM_DASHA_ORDER := by decide

theorem rotation_cons : ∀ j : ℕ, j < 9 →
    VIM_DASHA_ORDER.getD j "" ::
      (List.range 8).map (fun t => VIM_DASHA_ORDER.getD ((j + 1 + t) % 9) "") =
    (List.range 9).map (fun t => VIM_DASHA_ORDER.getD ((j + t) % 9) "") := by decide

theorem sum_rest : ∀ j : ℕ, j < 9 →
    ((List.range 8).map (fun t =>
      VIM_DASHA_YEARS (VIM_DASHA_ORDER.getD ((j + 1 + t) % 9) ""))).sum =
      120 - VIM_DASHA_YEARS (VIM_DASHA_ORDER.getD j "") := by
  intro j hj
  interval_cases j <;>
    simp [List.range_succ, VIM_DASHA_ORDER, VIM_DASHA_YEARS] <;> norm_num

theorem dashaTail_length (fuel : ℕ) : ∀ (idx0 i : ℕ) (running : ℚ),
    (dashaTail idx0 fuel running i).length = fuel := by
  induction fuel with
  | zero => intro idx0 i running; simp [dashaTail]
  | succ fuel ih => intro idx0 i running; simp [dashaTail, ih]

theorem dashaTail_map_lord (fuel : ℕ) : ∀ (idx0 i : ℕ) (running : ℚ),
    (dashaTail idx0 fuel running i).map (fun e => e.lord) =
      (List.range fuel).map (fun t => VIM_DASHA_ORDER.getD ((idx0 + i + t) % 9) "") := by
  induction fuel with
  | zero => intro idx0 i running; simp [dashaTail]
  | succ fuel ih =>
    intro idx0 i running
    rw [List.range_succ_eq_map, List.map_cons, List.map_map]
    simp only [dashaTail, List.map_cons, ih]
    refine congrArg₂ List.cons ?_ ?_
    · rw [Nat.add_zero]
    · apply List.map_congr_left
      intro t _
      simp only [Function.comp_apply]
      have h : idx0 + (i + 1) + t = idx0 + i + Nat.succ t := by omega
      rw [h]

theorem dashaTail_map_years (fuel : ℕ) : ∀ (idx0 i : ℕ) (running : ℚ),
    (dashaTail idx0 fuel running i).map (fun e => e.years) =
      (List.range fuel).map (fun t =>
        VIM_DASHA_YEARS (VIM_DASHA_ORDER.getD ((idx0 + i + t) % 9) "")) := by
  induction fuel with
  | zero => intro idx0 i running; simp [dashaTail]
  | succ fuel ih =>
    intro idx0 i running
    rw [List.range_succ_eq_map, List.map_cons, List.map_map]
    simp only [dashaTail, List.map_cons, ih]
    refine congrArg₂ List.cons ?_ ?_
    · rw [Nat.add_zero]
    · apply List.map_congr_left
      intro t _
      simp only [Function.comp_apply]
      have h : idx0 + (i + 1) + t = idx0 + i + Nat.succ t := by omega
      rw [h]

theorem dashaTail_getD_years (fuel : ℕ) : ∀ (idx0 i t : ℕ) (running : ℚ), t < fuel →
    ((dashaTail idx0 fuel running i).getD t dpDefault).years =
      VIM_DASHA_YEARS (((dashaTail idx0 fuel running i).getD t dpDefault).lord) := by
  induction fuel with
  | zero => intro idx0 i t running ht; omega
  | succ fuel ih =>
    intro idx0 i t running ht
    cases t with
    | zero => simp [dashaTail]
    | succ t => simpa [dashaTail] using ih idx0 (i + 1) t _ (by omega)

theorem dashaTail_getD_from_now (fuel : ℕ) : ∀ (idx0 i t : ℕ) (running : ℚ), t < fuel →
    ((dashaTail idx0 fuel running i).getD t dpDefault).from_now =
      running + (((dashaTail idx0 fuel running i).take t).map (fun e => e.years)).sum := by
  induction fuel with
  | zero => intro idx0 i t running ht; omega
  | succ fuel ih =>
    intro idx0 i t running ht
    cases t with
    | zero => simp [dashaTail]
    | succ t =>
      have h := ih idx0 (i + 1) t
        (running + VIM_DASHA_YEARS (VIM_DASHA_ORDER.getD ((idx0 + i) % 9) "")) (by omega)
      simp only [dashaTail, List.getD_cons_succ, List.take_succ_cons, List.map_cons,
        List.sum_cons] at *
      rw [h]
      ring

theorem vimshottari_some (pos : Positions) (M : ℚ) (hM : getPos pos "Moon" = some M) :
    vimshottari pos = some ({ lord := vimStartLord M,
                              years := (1 - vimFraction M) * VIM_DASHA_YEARS (vimStartLord M),
                              from_now := 0 } ::
      dashaTail (VIM_DASHA_ORDER.indexOf (vimStartLord M)) 8
        ((1 - vimFraction M) * VIM_DASHA_YEARS (vimStartLord M)) 1) := by
  rw [vimshottari, hM]

theorem minSep_10_70 : minAngularSeparation 10 70 = 60 := by
  rw [minAngularSeparation, show (10 : ℚ) - 70 + 180 = 120 by norm_num,
    norm_eq_self 120 (by norm_num) (by norm_num),
    show (120 : ℚ) - 180 = -60 by norm_num, abs_neg,
    abs_of_nonneg (by norm_num : (0 : ℚ) ≤ 60)]

/-! Claim theorems -/

/-- C8: for every angle x, including negative x, normalize x lies in
[0, 360) and normalize is idempotent. -/
theorem normalize_range_idem :
    ∀ x : ℚ, (0 ≤ normalize x ∧ normalize x < 360) ∧
      normalize (normalize x) = normalize x :=
  fun x => ⟨⟨norm_nonneg_aux x, norm_lt_360 x⟩, norm_idem_aux x⟩

/-- C1: whenever the positions map has Sun longitude S and Moon longitude M,
both in [0, 360), compute_panchang returns the record with
tithi = floor (normalize (M - S) / 12) in [0, 29],
nakshatra = floor (M / (360/27)) in [0, 26],
yoga = floor (normalize (S + M) / (360/27)) in [0, 26] and
karana = (tithi * 2) mod 11 in [0, 10]; and it returns none exactly when
the Sun or the Moon longitude is unavailable. -/
theorem compute_panchang_correct :
    ∀ pos : Positions,
      (compute_panchang pos = none ↔
        (getPos pos "Sun" = none ∨ getPos pos "Moon" = none)) ∧
      ∀ S M : ℚ, getPos pos "Sun" = some S → getPos pos "Moon" = some M →
        0 ≤ S → S < 360 → 0 ≤ M → M < 360 →
        compute_panchang pos = some
          { tithi_idx := ⌊normalize (M - S) / 12⌋,
            tithi_mar := MAR_TITHI.getD (⌊normalize (M - S) / 12⌋).toNat "",
            nak_idx := ⌊M / (360 / 27)⌋,
            nak_mar := MAR_NAK.getD (⌊M / (360 / 27)⌋).toNat "",
            yoga_idx := ⌊normalize (S + M) / (360 / 27)⌋,
            karana_idx := (⌊normalize (M - S) / 12⌋ * 2) % 11 } ∧
        (0 ≤ ⌊normalize (M - S) / 12⌋ ∧ ⌊normalize (M - S) / 12⌋ ≤ 29) ∧
        (0 ≤ ⌊M / (360 / 27)⌋ ∧ ⌊M / (360 / 27)⌋ ≤ 26) ∧
        (0 ≤ ⌊normalize (S + M) / (360 / 27)⌋ ∧ ⌊normalize (S + M) / (360 / 27)⌋ ≤ 26) ∧
        (0 ≤ (⌊normalize (M - S) / 12⌋ * 2) % 11 ∧ (⌊normalize (M - S) / 12⌋ * 2) % 11 ≤ 10) := by
  intro pos
  constructor
  · cases hS : getPos pos "Sun" with
    | none =>
      cases hM : getPos pos "Moon" with
      | none => simp [compute_panchang, hS, hM]
      | some m => simp [compute_panchang, hS, hM]
    | some s =>
      cases hM : getPos pos "Moon" with
      | none => simp [compute_panchang, hS, hM]
      | some m => simp [compute_panchang, hS, hM]
  · intro S M hS hM h0S h1S h0M h1M
    refine ⟨by rw [compute_panchang, hS, hM], ?_, ?_, ?_, ?_⟩
    · constructor
      · exact Int.floor_nonneg.mpr (div_nonneg (norm_nonneg_aux _) (by norm_num))
      · have h : ⌊normalize (M - S) / 12⌋ < 30 := by
          apply Int.floor_lt.mpr
          push_cast
          rw [div_lt_iff₀ (by norm_num : (0 : ℚ) < 12)]
          have := norm_lt_360 (M - S)
          linarith
        omega
    · constructor
      · exact Int.floor_nonneg.mpr (div_nonneg h0M (by norm_num))
      · have h : ⌊M / (360 / 27)⌋ < 27 := by
          apply Int.floor_lt.mpr
          push_cast
          rw [div_lt_iff₀ (by norm_num : (0 : ℚ) < 360 / 27)]
          linarith
        omega
    · constructor
      · exact Int.floor_nonneg.mpr (div_nonneg (norm_nonneg_aux _) (by norm_num))
      · have h : ⌊normalize (S + M) / (360 / 27)⌋ < 27 := by
          apply Int.floor_lt.mpr
          push_cast
          rw [div_lt_iff₀ (by norm_num : (0 : ℚ) < 360 / 27)]
          have := norm_lt_360 (S + M)
          linarith
        omega
    · constructor
      · exact Int.emod_nonneg _ (by norm_num)
      · have h : (⌊normalize (M - S) / 12⌋ * 2) % 11 < 11 :=
          Int.emod_lt_of_pos _ (by norm_num)
        omega

/-- C2: for every available Moon longitude M in [0, 360), vimshottari
returns exactly 9 entries that visit each of the 9 rulers once, in the
fixed cyclical order starting from the ruler at index
(floor (M / (360/27))) mod 9 of the canonical order, and the sum of the 8
full-length entries is 120 minus the starting ruler's canonical length;
it returns none exactly when the Moon longitude is unavailable. -/
theorem vimshottari_cycle :
    ∀ pos : Positions,
      (vimshottari pos = none ↔ getPos pos "Moon" = none) ∧
      ∀ M : ℚ, getPos pos "Moon" = some M → 0 ≤ M → M < 360 →
        ∃ seq, vimshottari pos = some seq ∧ seq.length = 9 ∧
          seq.map (fun e => e.lord) =
            (List.range 9).map (fun t =>
              VIM_DASHA_ORDER.getD (((⌊M / (360 / 27)⌋).toNat % 9 + t) % 9) "") ∧
          (seq.map (fun e => e.lord)).Perm VIM_DASHA_ORDER ∧
          ((seq.drop 1).map (fun e => e.years)).sum =
            120 - VIM_DASHA_YEARS
              (VIM_DASHA_ORDER.getD ((⌊M / (360 / 27)⌋).toNat % 9) "") := by
  intro pos
  constructor
  · cases hM : getPos pos "Moon" with
    | none => simp [vimshottari, hM]
    | some m => simp [vimshottari, hM]
  · intro M hM h0 h1
    have hn0 : (0 : ℤ) ≤ ⌊M / (360 / 27)⌋ :=
      Int.floor_nonneg.mpr (div_nonneg h0 (by norm_num))
    have hn1 : ⌊M / (360 / 27)⌋ < 27 := by
      apply Int.floor_lt.mpr
      push_cast
      rw [div_lt_iff₀ (by norm_num : (0 : ℚ) < 360 / 27)]
      linarith
    have hk27 : (⌊M / (360 / 27)⌋).toNat < 27 := by omega
    have hk9 : (⌊M / (360 / 27)⌋).toNat % 9 < 9 := Nat.mod_lt _ (by norm_num)
    have hstart : vimStartLord M =
        VIM_DASHA_ORDER.getD ((⌊M / (360 / 27)⌋).toNat % 9) "" := by
      rw [vimStartLord]
      exact vimMapping_getD _ hk27
    have hidx : VIM_DASHA_ORDER.indexOf (vimStartLord M) =
        (⌊M / (360 / 27)⌋).toNat % 9 := by
      rw [hstart]
      exact indexOf_getD _ hk9
    refine ⟨_, vimshottari_some pos M hM, by simp [dashaTail_length], ?_, ?_, ?_⟩
    · simp only [List.map_cons, dashaTail_map_lord]
      rw [hidx, hstart]
      exact rotation_cons _ hk9
    · simp only [List.map_cons, dashaTail_map_lord]
      rw [hidx, hstart, rotation_cons _ hk9]
      exact rotation_perm _ hk9
    · simp only [List.drop_succ_cons, List.drop_zero, dashaTail_map_years, hidx]
      exact sum_rest _ hk9

/-- Witness for C2: Moon at 100 degrees (nakshatra index 7, Saturn). -/
theorem vimshottari_cycle_witness :
    getPos [("Moon", some 100)] "Moon" = some 100 ∧ (0 : ℚ) ≤ 100 ∧ (100 : ℚ) < 360 ∧
    (∃ seq, vimshottari [("Moon", some 100)] = some seq ∧ seq.length = 9 ∧
      seq.map (fun e => e.lord) =
        (List.range 9).map (fun t =>
          VIM_DASHA_ORDER.getD (((⌊(100 : ℚ) / (360 / 27)⌋).toNat % 9 + t) % 9) "") ∧
      (seq.map (fun e => e.lord)).Perm VIM_DASHA_ORDER ∧
      ((seq.drop 1).map (fun e => e.years)).sum =
        120 - VIM_DASHA_YEARS
          (VIM_DASHA_ORDER.getD ((⌊(100 : ℚ) / (360 / 27)⌋).toNat % 9) "")) :=
  ⟨rfl, by norm_num, by norm_num,
    (vimshottari_cycle [("Moon", some 100)]).2 100 rfl (by norm_num) (by norm_num)⟩

/-- C3: for every available Moon longitude M, the first dasha entry carries
(1 - fractionElapsed) times the starting ruler's canonical length with
cumulative offset 0, where fractionElapsed = (M mod (360/27)) / (360/27);
the remaining 8 entries carry their full canonical lengths, and every
entry's cumulative offset is the sum of the periods of all preceding
entries (the fractional first one included). -/
theorem vimshottari_balance :
    ∀ (pos : Positions) (M : ℚ), getPos pos "Moon" = some M →
      ∃ seq, vimshottari pos = some seq ∧ seq.length = 9 ∧
        seq.getD 0 dpDefault =
          { lord := vimStartLord M,
            years := (1 - vimFraction M) * VIM_DASHA_YEARS (vimStartLord M),
            from_now := 0 } ∧
        vimFraction M = (M - (360 / 27) * ⌊M / (360 / 27)⌋) / (360 / 27) ∧
        (∀ t, 1 ≤ t → t < 9 →
          (seq.getD t dpDefault).years =
            VIM_DASHA_YEARS ((seq.getD t dpDefault).lord)) ∧
        ∀ t, t < 9 →
          (seq.getD t dpDefault).from_now =
            ((seq.take t).map (fun e => e.years)).sum := by
  intro pos M hM
  refine ⟨_, vimshottari_some pos M hM, by simp [dashaTail_length], rfl, rfl, ?_, ?_⟩
  · intro t h1 h9
    cases t with
    | zero => omega
    | succ u =>
      simp only [List.getD_cons_succ]
      exact dashaTail_getD_years 8 _ 1 u _ (by omega)
  · intro t h9
    cases t with
    | zero => simp
    | succ u =>
      simp only [List.getD_cons_succ, List.take_succ_cons, List.map_cons, List.sum_cons]
      rw [dashaTail_getD_from_now 8 _ 1 u _ (by omega)]

/-- Witness for C3: Moon at 100 degrees. -/
theorem vimshottari_balance_witness :
    getPos [("Moon", some 100)] "Moon" = some 100 ∧
    (∃ seq, vimshottari [("Moon", some 100)] = some seq ∧ seq.length = 9 ∧
      seq.getD 0 dpDefault =
        { lord := vimStartLord 100,
          years := (1 - vimFraction 100) * VIM_DASHA_YEARS (vimStartLord 100),
          from_now := 0 } ∧
      vimFraction 100 = ((100 : ℚ) - (360 / 27) * ⌊(100 : ℚ) / (360 / 27)⌋) / (360 / 27) ∧
      (∀ t, 1 ≤ t → t < 9 →
        (seq.getD t dpDefault).years =
          VIM_DASHA_YEARS ((seq.getD t dpDefault).lord)) ∧
      ∀ t, t < 9 →
        (seq.getD t dpDefault).from_now =
          ((seq.take t).map (fun e => e.years)).sum) :=
  ⟨rfl, vimshottari_balance [("Moon", some 100)] 100 rfl⟩

/-- C4: in every snapshot produced by compute_chart, whenever the Rahu
longitude is known, the Ketu longitude equals normalize (Rahu + 180); and
Rahu is unknown exactly when Ketu is unknown (a node failure degrades both
together). -/
theorem compute_chart_nodes :
    ∀ (jd : ℚ) (dt : String) (p : Provider) (sidereal : Bool) (snap : ChartSnapshot),
      compute_chart jd dt p sidereal = some snap →
      (∀ r, getPos snap.positions "Rahu" = some r →
        getPos snap.positions "Ketu" = some (normalize (r + 180))) ∧
      (getPos snap.positions "Rahu" = none ↔ getPos snap.positions "Ketu" = none) := by
  intro jd dt p sidereal snap h
  rw [compute_chart] at h
  cases hc : calcAll p.calc_ut bodyNames with
  | none => rw [hc] at h; cases h
  | some results =>
    rw [hc] at h
    have h2 := Option.some.inj h
    subst h2
    have hkeys : results.map Prod.fst = bodyNames := calcAll_keys _ _ _ hc
    have hnm : "Rahu" ∉ bodyNames := by decide
    have hnm2 : "Ketu" ∉ bodyNames := by decide
    cases hn : p.node with
    | some rn =>
      simp only [hn]
      rw [getPos_planets_skip _ _ _ _ hkeys hnm, getPos_planets_skip _ _ _ _ hkeys hnm2,
        getPos_pair_first, getPos_pair_second]
      constructor
      · intro r hr
        cases Option.some.inj hr
        rfl
      · simp
    | none =>
      simp only [hn]
      rw [getPos_planets_skip _ _ _ _ hkeys hnm, getPos_planets_skip _ _ _ _ hkeys hnm2,
        getPos_pair_first, getPos_pair_second]
      constructor
      · intro r hr
        cases hr
      · simp

/-- Witness for C4: the concrete provider wProvider, whose node query
returns 10 degrees. -/
theorem compute_chart_nodes_witness :
    compute_chart 0 "" wProvider false = some wSnap ∧
    ((∀ r, getPos wSnap.positions "Rahu" = some r →
      getPos wSnap.positions "Ketu" = some (normalize (r + 180))) ∧
      (getPos wSnap.positions "Rahu" = none ↔ getPos wSnap.positions "Ketu" = none)) :=
  ⟨rfl, compute_chart_nodes 0 "" wProvider false wSnap rfl⟩

/-- C10: in every snapshot produced by compute_chart, the speeds map has
entries for exactly the seven bodies Sun through Saturn, and Rahu and Ketu
never receive speed entries. -/
theorem compute_chart_speed_keys :
    ∀ (jd : ℚ) (dt : String) (p : Provider) (sidereal : Bool) (snap : ChartSnapshot),
      compute_chart jd dt p sidereal = some snap →
      snap.speeds.map Prod.fst = bodyNames ∧
      snap.speeds.lookup "Rahu" = none ∧ snap.speeds.lookup "Ketu" = none := by
  intro jd dt p sidereal snap h
  rw [compute_chart] at h
  cases hc : calcAll p.calc_ut bodyNames with
  | none => rw [hc] at h; cases h
  | some results =>
    rw [hc] at h
    have h2 := Option.some.inj h
    subst h2
    have hkeys : results.map Prod.fst = bodyNames := calcAll_keys _ _ _ hc
    have hsp : (results.map (fun r => (r.1, r.2.2))).map Prod.fst = bodyNames := by
      rw [keys_of_mapped]; exact hkeys
    refine ⟨hsp, ?_, ?_⟩
    · apply lookup_none
      intro x hx e
      have : "Rahu" ∈ bodyNames := by
        rw [← hsp, ← e]; exact List.mem_map_of_mem Prod.fst hx
      exact absurd this (by decide)
    · apply lookup_none
      intro x hx e
      have : "Ketu" ∈ bodyNames := by
        rw [← hsp, ← e]; exact List.mem_map_of_mem Prod.fst hx
      exact absurd this (by decide)

/-- Witness for C10: the concrete provider wProvider; the node longitudes
are known in the snapshot, yet only the seven planets carry speeds. -/
theorem compute_chart_speed_keys_witness :
    compute_chart 0 "" wProvider false = some wSnap ∧
    (getPos wSnap.positions "Rahu").isSome = true ∧
    (getPos wSnap.positions "Ketu").isSome = true ∧
    (wSnap.speeds.map Prod.fst = bodyNames ∧
      wSnap.speeds.lookup "Rahu" = none ∧ wSnap.speeds.lookup "Ketu" = none) :=
  ⟨rfl, rfl, rfl, compute_chart_speed_keys 0 "" wProvider false wSnap rfl⟩

/-- C6 (amended): compute_chart produces a snapshot exactly when all seven
planet queries resolve; a failure on any planet aborts the whole chart,
while node and houses failures never do. -/
theorem compute_chart_abort :
    ∀ (jd : ℚ) (dt : String) (p : Provider) (sidereal : Bool),
      (compute_chart jd dt p sidereal).isSome = true ↔
        ∀ n ∈ bodyNames, (p.calc_ut n).isSome = true := by
  intro jd dt p sidereal
  have h := calcAll_isSome p.calc_ut bodyNames
  rw [compute_chart]
  cases hc : calcAll p.calc_ut bodyNames with
  | none =>
    rw [hc] at h
    simp only [Option.isSome_none, Bool.false_eq_true, false_iff] at h ⊢
    exact h
  | some results =>
    rw [hc] at h
    simp only [Option.isSome_some, true_iff] at h ⊢
    exact h

/-- Counterexample for C6: a provider failing only on the Sun query still
aborts the whole snapshot instead of degrading one field. -/
theorem compute_chart_abort_cex :
    compute_chart 0 "" failProvider true = none ∧
    failProvider.calc_ut "Sun" = none ∧
    (failProvider.calc_ut "Moon").isSome = true ∧
    failProvider.node.isSome = true ∧ failProvider.houses.isSome = true :=
  ⟨rfl, rfl, rfl, rfl, rfl⟩

/-- C5 (amended): compute_chart discards the provider-supplied cusps (the
result is identical under any cusp list) but regenerates nothing: the
returned dict has exactly the keys jd_ut, dt_ut, positions, speeds, asc
and mc, so the snapshot records no house-cusp longitudes at all. -/
theorem compute_chart_cusps_discarded :
    (∀ (jd : ℚ) (dt : String) (p : Provider) (sidereal : Bool) (a m : ℚ)
      (c c' : List ℚ),
      compute_chart jd dt { p with houses := some (a, m, c) } sidereal =
        compute_chart jd dt { p with houses := some (a, m, c') } sidereal) ∧
    chartKeys = ["jd_ut", "dt_ut", "positions", "speeds", "asc", "mc"] ∧
    "cusps" ∉ chartKeys := by
  refine ⟨?_, rfl, by decide⟩
  intro jd dt p sidereal a m c c'
  rfl

/-- Counterexample for C5: a concrete chart with ascendant 125 degrees
under the whole-sign house call; the snapshot is unchanged under a
different provider cusp list and contains no cusps entry, so no list of
12 regenerated whole-sign cusps exists in it. -/
theorem compute_chart_cusps_cex :
    wsProviderA.houses = some (125, 50, [300, 330, 0]) ∧
    wsProviderB.houses = some (125, 50, [0, 30, 60]) ∧
    (compute_chart 0 "" wsProviderA false).isSome = true ∧
    compute_chart 0 "" wsProviderA false = compute_chart 0 "" wsProviderB false ∧
    ((compute_chart 0 "" wsProviderA false).getD emptySnap).asc = some 125 ∧
    "cusps" ∉ chartKeys := by
  refine ⟨rfl, rfl, rfl, rfl, ?_, by decide⟩
  show some (normalize (125 - 0)) = some 125
  rw [show (125 : ℚ) - 0 = 125 by norm_num, norm_eq_self 125 (by norm_num) (by norm_num)]

/-- Witness for C1: Sun at 10 degrees and Moon at 190 degrees. -/
theorem compute_panchang_correct_witness :
    getPos [("Sun", some 10), ("Moon", some 190)] "Sun" = some 10 ∧
    getPos [("Sun", some 10), ("Moon", some 190)] "Moon" = some 190 ∧
    (0 : ℚ) ≤ 10 ∧ (10 : ℚ) < 360 ∧ (0 : ℚ) ≤ 190 ∧ (190 : ℚ) < 360 ∧
    (compute_panchang [("Sun", some 10), ("Moon", some 190)] = some
      { tithi_idx := ⌊normalize ((190 : ℚ) - 10) / 12⌋,
        tithi_mar := MAR_TITHI.getD (⌊normalize ((190 : ℚ) - 10) / 12⌋).toNat "",
        nak_idx := ⌊(190 : ℚ) / (360 / 27)⌋,
        nak_mar := MAR_NAK.getD (⌊(190 : ℚ) / (360 / 27)⌋).toNat "",
        yoga_idx := ⌊normalize ((10 : ℚ) + 190) / (360 / 27)⌋,
        karana_idx := (⌊normalize ((190 : ℚ) - 10) / 12⌋ * 2) % 11 } ∧
      (0 ≤ ⌊normalize ((190 : ℚ) - 10) / 12⌋ ∧ ⌊normalize ((190 : ℚ) - 10) / 12⌋ ≤ 29) ∧
      (0 ≤ ⌊(190 : ℚ) / (360 / 27)⌋ ∧ ⌊(190 : ℚ) / (360 / 27)⌋ ≤ 26) ∧
      (0 ≤ ⌊normalize ((10 : ℚ) + 190) / (360 / 27)⌋ ∧
        ⌊normalize ((10 : ℚ) + 190) / (360 / 27)⌋ ≤ 26) ∧
      (0 ≤ (⌊normalize ((190 : ℚ) - 10) / 12⌋ * 2) % 11 ∧
        (⌊normalize ((190 : ℚ) - 10) / 12⌋ * 2) % 11 ≤ 10)) :=
  ⟨rfl, rfl, by norm_num, by norm_num, by norm_num, by norm_num,
    (compute_panchang_correct [("Sun", some 10), ("Moon", some 190)]).2 10 190 rfl rfl
      (by norm_num) (by norm_num) (by norm_num) (by norm_num)⟩

/-- C7: the aspect detector (modelled from the spec, no aspect code exists
in src/app.py) records a match for an unordered roster pair and a
caller-supplied definition exactly when the absolute difference between
the minimum angular separation and the exact angle is at most the orb; in
particular bodies at 10 and 70 degrees have separation 60 and match a
Sextile definition with angle 60 for every nonnegative orb. -/
theorem detectAspects_correct :
    (∀ (roster : List (String × ℚ)) (defs : List AspectDef) (m : AspectMatch),
      m ∈ detectAspects roster defs ↔
        ∃ p ∈ pairsOf roster, ∃ d ∈ defs,
          |minAngularSeparation p.1.2 p.2.2 - d.exactAngle| ≤ d.orb ∧
          m = { bodyA := p.1.1, bodyB := p.2.1,
                separation := minAngularSeparation p.1.2 p.2.2,
                aspectName := d.name }) ∧
    minAngularSeparation 10 70 = 60 ∧
    ∀ o w : ℚ, 0 ≤ o →
      ({ bodyA := "A", bodyB := "B", separation := 60, aspectName := "Sextile" } :
        AspectMatch) ∈
        detectAspects [("A", 10), ("B", 70)]
          [{ name := "Sextile", exactAngle := 60, orb := o, weight := w }] := by
  refine ⟨?_, minSep_10_70, ?_⟩
  · intro roster defs m
    rw [detectAspects, List.mem_flatMap]
    constructor
    · rintro ⟨p, hp, hm⟩
      rw [List.mem_filterMap] at hm
      obtain ⟨d, hd, hdm⟩ := hm
      by_cases h : |minAngularSeparation p.1.2 p.2.2 - d.exactAngle| ≤ d.orb
      · rw [if_pos h] at hdm
        exact ⟨p, hp, d, hd, h, (Option.some.inj hdm).symm⟩
      · rw [if_neg h] at hdm
        cases hdm
    · rintro ⟨p, hp, d, hd, h, rfl⟩
      exact ⟨p, hp, List.mem_filterMap.mpr ⟨d, hd, by rw [if_pos h]⟩⟩
  · intro o w ho
    have hc : |minAngularSeparation 10 70 - 60| ≤ o := by
      rw [minSep_10_70]
      simpa using ho
    simp [detectAspects, pairsOf, hc, minSep_10_70]
    exact ho

/-- Witness for C7: a Sextile definition with orb 6 and weight 1. -/
theorem detectAspects_correct_witness :
    (0 : ℚ) ≤ 6 ∧
    ({ bodyA := "A", bodyB := "B", separation := 60, aspectName := "Sextile" } :
      AspectMatch) ∈
      detectAspects [("A", 10), ("B", 70)]
        [{ name := "Sextile", exactAngle := 60, orb := 6, weight := 1 }] :=
  ⟨by norm_num, detectAspects_correct.2.2 6 1 (by norm_num)⟩

/-- C9: the Generate handler computes no dasha for the English and Marathi
Western (Tropical) mode labels, but the Hindi Western (Tropical) label is
not matched by the startswith checks, so a dasha sequence is produced for
it even though the mode is tropical. -/
theorem generateDasha_mode_bug :
    siderealOfMode (mode_options_en.getD 2 "") = false ∧
    siderealOfMode (mode_options_mr.getD 2 "") = false ∧
    siderealOfMode (mode_options_hi.getD 2 "") = true ∧
    generateDasha (mode_options_en.getD 2 "") [("Moon", some 100)] = none ∧
    generateDasha (mode_options_mr.getD 2 "") [("Moon", some 100)] = none ∧
    getPos [("Moon", some 100)] "Moon" = some 100 ∧
    (generateDasha (mode_options_hi.getD 2 "") [("Moon", some 100)]).isSome = true :=
  ⟨by decide, by decide, by decide, rfl, rfl, rfl, rfl⟩

end AstroCanvas
